import Mathlib

/-!
Shallow embedding of the zwave-js-server session/protocol layer.

Embedded source files:
  src/lib/server.ts                       (Client, ClientsController)
  src/lib/controller/message_handler.ts   (ControllerMessageHandler, processInclusionOptions)

External collaborators (the zwave-js Driver, the websocket) are modelled as
oracles/explicit state.  Files of this repository that are imported by the
embedded ones but are not present under src (error.ts, state.ts, forward.ts,
const.ts) are modelled from the spec where a claim needs them; every such
definition carries a doc comment starting with the words Modelled from the spec.
-/

/-- Inclusion strategies of the external zwave-js library (only the tags
matter to this repository). -/
inductive InclusionStrategy
  | Default
  | SmartStart
  | Insecure
  | Security_S0
  | Security_S2
deriving DecidableEq, Repr

/-- Opaque payload of an InclusionGrant answer (external zwave-js type);
its contents are never inspected by this repository. -/
def InclusionGrant : Type := Nat

instance : DecidableEq InclusionGrant := instDecidableEqNat

instance : Repr InclusionGrant := instReprNat

instance (n : Nat) : OfNat InclusionGrant n := ⟨n⟩

/-- Modelled from the spec: the error taxonomy of the missing src/lib/error.ts
(SchemaIncompatibleError, UnknownCommandError, InclusionAlreadyInProgressError,
InclusionPhaseNotInProgressError, all BaseError subclasses each carrying an
errorCode), plus the external ZWaveError and the unexpected-error case of the
catch block in Client.receiveMessage. -/
inductive HandlerError
  | schemaIncompatible (version : Nat)
  | unknownCommand (command : String)
  | inclusionAlreadyInProgress
  | inclusionPhaseNotInProgress (channel : String)
  | zwave (code : Nat) (message : String)
  | unexpected
deriving DecidableEq, Repr

/-- Modelled from the spec: the errorCode values of the missing
src/lib/error.ts, one per BaseError subclass plus unknownError and
zwaveError. -/
inductive ErrorCode
  | unknownError
  | unknownCommand
  | schemaIncompatible
  | zwaveError
  | inclusionAlreadyInProgress
  | inclusionPhaseNotInProgress
deriving DecidableEq, Repr

/-- Failures an external driver/controller call can raise: a ZWaveError with
its own code and message, or any other thrown value. -/
inductive DriverFail
  | zwave (code : Nat) (message : String)
  | other
deriving DecidableEq, Repr

/-- Translation of a DriverFail to the HandlerError that propagates out of the
awaited call in ControllerMessageHandler.handle. -/
def DriverFail.toHandlerError : DriverFail → HandlerError
  | .zwave c m => .zwave c m
  | .other => .unexpected

/-- Events pushed by the interactive userCallbacks installed by
processInclusionOptions (message_handler.ts lines 194-242). -/
inductive CtrlEvent
  | grantSecurityClasses (requested : InclusionGrant)
  | validateDSKAndEnterPin (dsk : String)
  | inclusionAborted
deriving DecidableEq, Repr

/-- A settlement of one of the two deferred promises: promise identity plus
the resolved value or the rejection. -/
inductive Settlement
  | resolvedGrant (p : Nat) (value : Option InclusionGrant)
  | resolvedPin (p : Nat) (value : Option String)
  | rejectedGrant (p : Nat)
  | rejectedPin (p : Nat)
deriving DecidableEq, Repr

/-- The two single-slot deferred-promise fields of ClientsController
(server.ts lines 261-262); a slot holds the identity of the pending deferred
promise, or nothing when idle. -/
structure ClientsState where
  grantSecurityClassesPromise : Option Nat
  validateDSKAndEnterPinPromise : Option Nat
deriving DecidableEq, Repr

/-- Per-connection state of Client (server.ts lines 35-39) together with the
socket readyState used by isConnected. -/
structure ClientState where
  receiveEvents : Bool
  outstandingPing : Bool
  schemaVersion : Nat
  receiveLogs : Bool
  connected : Bool
deriving DecidableEq, Repr

/-- Modelled from the spec: minSchemaVersion and maxSchemaVersion, imported by
server.ts from the missing src/lib/const.ts; the spec gives the interval, not
the numbers, so they are parameters of the model. -/
structure SchemaConfig where
  minSchemaVersion : Nat
  maxSchemaVersion : Nat
deriving DecidableEq, Repr

/-- A fresh Client as constructed in server.ts: receiveEvents and receiveLogs
false, no outstanding ping, schemaVersion defaulted to minSchemaVersion, and a
freshly opened socket. -/
def ClientState.init (cfg : SchemaConfig) : ClientState :=
  { receiveEvents := false
    outstandingPing := false
    schemaVersion := cfg.minSchemaVersion
    receiveLogs := false
    connected := true }

/-- The inclusion options carried by a begin-inclusion / replace-failed-node
message: a schema-8+ options object with a strategy, or the legacy shape whose
includeNonSecure flag may be present (true/false) or absent. -/
inductive IncomingInclusionOptions
  | modern (strategy : InclusionStrategy)
  | legacy (includeNonSecure : Option Bool)
deriving DecidableEq, Repr

/-- Result of processInclusionOptions: the strategy passed on to the driver
and whether the interactive userCallbacks object was installed on the
options. -/
structure ProcessedOptions where
  strategy : InclusionStrategy
  userCallbacks : Bool
deriving DecidableEq, Repr

/-- processInclusionOptions (message_handler.ts lines 172-254), projected to
the data the driver call receives.  Schema 8+ messages pass their options
through, with userCallbacks installed exactly when the strategy is Default or
Security_S2; legacy messages map includeNonSecure present-and-true to
Insecure and everything else to Security_S0. -/
def processInclusionOptions : IncomingInclusionOptions → ProcessedOptions
  | .modern strategy =>
      { strategy := strategy
        userCallbacks :=
          match strategy with
          | .Default | .Security_S2 => true
          | _ => false }
  | .legacy includeNonSecure =>
      if includeNonSecure = some true then
        { strategy := InclusionStrategy.Insecure, userCallbacks := false }
      else
        { strategy := InclusionStrategy.Security_S0, userCallbacks := false }

/-- The controller commands dispatched by ControllerMessageHandler.handle
(message_handler.ts lines 37-168).  The deprecated removeNodeFromAllAssocations
spelling shares the removeNodeFromAllAssociations case exactly as the two
switch labels share one body.  The unknown case is the default branch. -/
inductive ControllerCmd
  | beginInclusion (opts : IncomingInclusionOptions)
  | grantSecurityClasses (inclusionGrant : Option InclusionGrant)
  | validateDSKAndEnterPIN (pin : Option String)
  | stopInclusion
  | beginExclusion
  | stopExclusion
  | removeFailedNode (nodeId : Nat)
  | replaceFailedNode (nodeId : Nat) (opts : IncomingInclusionOptions)
  | healNode (nodeId : Nat)
  | beginHealingNetwork
  | stopHealingNetwork
  | isFailedNode (nodeId : Nat)
  | getAssociationGroups (nodeId : Nat) (endpoint : Option Nat)
  | getAssociations (nodeId : Nat) (endpoint : Option Nat)
  | isAssociationAllowed (nodeId : Nat) (endpoint : Option Nat)
      (group : Nat) (assoc : Nat)
  | addAssociations (nodeId : Nat) (endpoint : Option Nat) (group : Nat)
  | removeAssociations (nodeId : Nat) (endpoint : Option Nat) (group : Nat)
  | removeNodeFromAllAssociations (nodeId : Nat)
  | getNodeNeighbors (nodeId : Nat)
  | unknown (command : String)
deriving DecidableEq, Repr

/-- The result payloads of the controller handler (outgoing_message.ts shapes
as constructed in message_handler.ts); association maps and groups are opaque
to this layer and abstracted as a Nat handle. -/
inductive ControllerResult
  | empty
  | success (b : Bool)
  | failed (b : Bool)
  | groups (g : Nat)
  | associations (a : Nat)
  | allowed (b : Bool)
  | neighbors (ns : List Nat)
deriving DecidableEq, Repr

/-- A call made into the external driver.controller capability, recorded so
that theorems can speak about whether the controller was invoked. -/
inductive DriverCall
  | beginInclusion (opts : ProcessedOptions)
  | stopInclusion
  | beginExclusion
  | stopExclusion
  | removeFailedNode (nodeId : Nat)
  | replaceFailedNode (nodeId : Nat) (opts : ProcessedOptions)
  | healNode (nodeId : Nat)
  | beginHealingNetwork
  | stopHealingNetwork
  | isFailedNode (nodeId : Nat)
  | getAssociationGroups (nodeId : Nat) (endpoint : Option Nat)
  | getAssociations (nodeId : Nat) (endpoint : Option Nat)
  | isAssociationAllowed (nodeId : Nat) (endpoint : Option Nat)
      (group : Nat) (assoc : Nat)
  | addAssociations (nodeId : Nat) (endpoint : Option Nat) (group : Nat)
  | removeAssociations (nodeId : Nat) (endpoint : Option Nat) (group : Nat)
  | removeNodeFromAllAssociations (nodeId : Nat)
  | getNodeNeighbors (nodeId : Nat)
  | updateLogConfig (config : Nat)
deriving DecidableEq, Repr

/-- Oracle for the external zwave-js driver collaborator: the outcome of each
controller capability call (a value, or a thrown DriverFail), plus the current
abstract driver snapshot used by the state/log-config dumps. -/
structure DriverOracle where
  beginInclusion : ProcessedOptions → Except DriverFail Bool
  stopInclusion : Except DriverFail Bool
  beginExclusion : Except DriverFail Bool
  stopExclusion : Except DriverFail Bool
  removeFailedNode : Nat → Except DriverFail Unit
  replaceFailedNode : Nat → ProcessedOptions → Except DriverFail Bool
  healNode : Nat → Except DriverFail Bool
  beginHealingNetwork : Except DriverFail Bool
  stopHealingNetwork : Except DriverFail Bool
  isFailedNode : Nat → Except DriverFail Bool
  getAssociationGroups : Nat → Option Nat → Except DriverFail Nat
  getAssociations : Nat → Option Nat → Except DriverFail Nat
  isAssociationAllowed :
    Nat → Option Nat → Nat → Nat → Except DriverFail Bool
  addAssociations : Nat → Option Nat → Nat → Except DriverFail Unit
  removeAssociations : Nat → Option Nat → Nat → Except DriverFail Unit
  removeNodeFromAllAssociations : Nat → Except DriverFail Unit
  getNodeNeighbors : Nat → Except DriverFail (List Nat)
  updateLogConfig : Nat → Except DriverFail Unit
  snapshot : Nat

/-- Output of one ControllerMessageHandler.handle invocation: the returned
result or the thrown error, the clientsController state afterwards, the calls
made into the driver, and the promise settlements performed. -/
structure HandleOut where
  result : Except HandlerError ControllerResult
  cc : ClientsState
  calls : List DriverCall
  settled : List Settlement

/-- Lift an Except-returning driver call with a result wrapper into a
HandleOut, leaving the clientsController untouched, as every plain
driver-delegating case of the switch does. -/
def driverCase (cc : ClientsState) (call : DriverCall)
    (outcome : Except DriverFail ControllerResult) : HandleOut :=
  { result := outcome.mapError DriverFail.toHandlerError
    cc := cc
    calls := [call]
    settled := [] }

/-- The finally handler installed on a grant deferred promise
(message_handler.ts lines 200-207): clear the clientsController slot only if
it still holds this very promise. -/
def clearGrantIfCurrent (cc : ClientsState) (p : Nat) : ClientsState :=
  if cc.grantSecurityClassesPromise = some p then
    { cc with grantSecurityClassesPromise := none }
  else cc

/-- The finally handler installed on a validate-DSK deferred promise
(message_handler.ts lines 219-226): clear the clientsController slot only if
it still holds this very promise. -/
def clearPinIfCurrent (cc : ClientsState) (p : Nat) : ClientsState :=
  if cc.validateDSKAndEnterPinPromise = some p then
    { cc with validateDSKAndEnterPinPromise := none }
  else cc

/-- ControllerMessageHandler.handle (message_handler.ts lines 29-169), as a
function of the incoming command, the clientsController state and the driver
oracle.  Settling a deferred promise includes the attached finally handler
(the clear-if-current step), which is guaranteed to run once the promise is
settled. -/
def handleControllerCommand (cc : ClientsState) (driver : DriverOracle) :
    ControllerCmd → HandleOut
  | .beginInclusion opts =>
      if cc.grantSecurityClassesPromise.isSome ∨
          cc.validateDSKAndEnterPinPromise.isSome then
        { result := .error .inclusionAlreadyInProgress
          cc := cc, calls := [], settled := [] }
      else
        let processed := processInclusionOptions opts
        driverCase cc (.beginInclusion processed)
          ((driver.beginInclusion processed).map .success)
  | .grantSecurityClasses inclusionGrant =>
      match cc.grantSecurityClassesPromise with
      | none =>
          { result := .error
              (.inclusionPhaseNotInProgress ("grantSecurityClassesPromise"))
            cc := cc, calls := [], settled := [] }
      | some p =>
          { result := .ok .empty
            cc := clearGrantIfCurrent cc p
            calls := []
            settled := [.resolvedGrant p inclusionGrant] }
  | .validateDSKAndEnterPIN pin =>
      match cc.validateDSKAndEnterPinPromise with
      | none =>
          { result := .error
              (.inclusionPhaseNotInProgress ("validateDSKAndEnterPinPromise"))
            cc := cc, calls := [], settled := [] }
      | some p =>
          { result := .ok .empty
            cc := clearPinIfCurrent cc p
            calls := []
            settled := [.resolvedPin p pin] }
  | .stopInclusion =>
      driverCase cc .stopInclusion (driver.stopInclusion.map .success)
  | .beginExclusion =>
      driverCase cc .beginExclusion (driver.beginExclusion.map .success)
  | .stopExclusion =>
      driverCase cc .stopExclusion (driver.stopExclusion.map .success)
  | .removeFailedNode nodeId =>
      driverCase cc (.removeFailedNode nodeId)
        ((driver.removeFailedNode nodeId).map fun _ => .empty)
  | .replaceFailedNode nodeId opts =>
      let processed := processInclusionOptions opts
      driverCase cc (.replaceFailedNode nodeId processed)
        ((driver.replaceFailedNode nodeId processed).map .success)
  | .healNode nodeId =>
      driverCase cc (.healNode nodeId)
        ((driver.healNode nodeId).map .success)
  | .beginHealingNetwork =>
      driverCase cc .beginHealingNetwork
        (driver.beginHealingNetwork.map .success)
  | .stopHealingNetwork =>
      driverCase cc .stopHealingNetwork
        (driver.stopHealingNetwork.map .success)
  | .isFailedNode nodeId =>
      driverCase cc (.isFailedNode nodeId)
        ((driver.isFailedNode nodeId).map .failed)
  | .getAssociationGroups nodeId endpoint =>
      driverCase cc (.getAssociationGroups nodeId endpoint)
        ((driver.getAssociationGroups nodeId endpoint).map .groups)
  | .getAssociations nodeId endpoint =>
      driverCase cc (.getAssociations nodeId endpoint)
        ((driver.getAssociations nodeId endpoint).map .associations)
  | .isAssociationAllowed nodeId endpoint group assoc =>
      driverCase cc (.isAssociationAllowed nodeId endpoint group assoc)
        ((driver.isAssociationAllowed nodeId endpoint group assoc).map
          .allowed)
  | .addAssociations nodeId endpoint group =>
      driverCase cc (.addAssociations nodeId endpoint group)
        ((driver.addAssociations nodeId endpoint group).map fun _ => .empty)
  | .removeAssociations nodeId endpoint group =>
      driverCase cc (.removeAssociations nodeId endpoint group)
        ((driver.removeAssociations nodeId endpoint group).map
          fun _ => .empty)
  | .removeNodeFromAllAssociations nodeId =>
      driverCase cc (.removeNodeFromAllAssociations nodeId)
        ((driver.removeNodeFromAllAssociations nodeId).map fun _ => .empty)
  | .getNodeNeighbors nodeId =>
      driverCase cc (.getNodeNeighbors nodeId)
        ((driver.getNodeNeighbors nodeId).map .neighbors)
  | .unknown command =>
      { result := .error (.unknownCommand command)
        cc := cc, calls := [], settled := [] }

/-- Output of invoking one of the userCallbacks the controller holds: the
clientsController state afterwards, the settlements performed, and the events
pushed to the initiating client. -/
structure CallbackOut where
  cc : ClientsState
  settled : List Settlement
  events : List CtrlEvent

/-- The grantSecurityClasses userCallback (message_handler.ts lines 195-215):
store a fresh deferred promise p in the clientsController slot (the finally
handler is attached at this point and modelled at settlement time), then push
a grant-security-classes event to the initiating client. -/
def invokeGrantSecurityClasses (cc : ClientsState) (p : Nat)
    (requested : InclusionGrant) : CallbackOut :=
  { cc := { cc with grantSecurityClassesPromise := some p }
    settled := []
    events := [.grantSecurityClasses requested] }

/-- The validateDSKAndEnterPIN userCallback (message_handler.ts lines
216-233): store a fresh deferred promise p in the clientsController slot,
then push a validate-dsk-and-enter-pin event to the initiating client. -/
def invokeValidateDSKAndEnterPIN (cc : ClientsState) (p : Nat)
    (dsk : String) : CallbackOut :=
  { cc := { cc with validateDSKAndEnterPinPromise := some p }
    settled := []
    events := [.validateDSKAndEnterPin dsk] }

/-- The abort userCallback (message_handler.ts lines 234-241).  capturedGrant
and capturedPin are the closure-captured local promise variables (the last
promise each callback of this operation created, or none if never invoked).
Each captured promise, if present, is rejected — which runs its finally
handler, clearing the slot only if it still holds that promise — and then an
inclusion-aborted event is pushed unconditionally. -/
def abortCallback (capturedGrant capturedPin : Option Nat)
    (cc : ClientsState) : CallbackOut :=
  let afterGrant : ClientsState × List Settlement :=
    match capturedGrant with
    | none => (cc, [])
    | some p => (clearGrantIfCurrent cc p, [Settlement.rejectedGrant p])
  let afterPin : ClientsState × List Settlement :=
    match capturedPin with
    | none => (afterGrant.1, [])
    | some p =>
        (clearPinIfCurrent afterGrant.1 p, [Settlement.rejectedPin p])
  { cc := afterPin.1
    settled := afterGrant.2 ++ afterPin.2
    events := [.inclusionAborted] }

/-- Modelled from the spec: dumpState of the missing src/lib/state.ts — a
point-in-time dump of the driver keyed by the schema version it is rendered
for. -/
structure StateDump where
  snapshot : Nat
  schemaVersion : Nat
deriving DecidableEq, Repr

/-- Modelled from the spec: dumpState (missing src/lib/state.ts) renders the
current driver snapshot keyed by the given schema version. -/
def dumpState (driver : DriverOracle) (schemaVersion : Nat) : StateDump :=
  { snapshot := driver.snapshot, schemaVersion := schemaVersion }

/-- Modelled from the spec: dumpLogConfig (missing src/lib/state.ts) renders
the driver log configuration keyed by the given schema version. -/
def dumpLogConfig (driver : DriverOracle) (schemaVersion : Nat) : StateDump :=
  { snapshot := driver.snapshot, schemaVersion := schemaVersion }

/-- The result payload of an OutgoingResultMessageSuccess as produced by the
branches of Client.receiveMessage. -/
inductive ResultPayload
  | empty
  | controller (r : ControllerResult)
  | state (dump : StateDump)
  | logConfig (dump : StateDump)
  | otherHandler
deriving DecidableEq, Repr

/-- Outgoing frames built by the send helpers of Client (server.ts lines
186-240). -/
inductive OutgoingFrame
  | resultSuccess (messageId : String) (result : ResultPayload)
  | resultError (messageId : String) (errorCode : ErrorCode)
  | resultZWaveError (messageId : String) (zwaveErrorCode : Nat)
      (zwaveErrorMessage : String)
  | event (ev : CtrlEvent)
deriving DecidableEq, Repr

/-- Whether a frame is a result frame (as opposed to an event frame). -/
def OutgoingFrame.isResult : OutgoingFrame → Bool
  | .resultSuccess _ _ => true
  | .resultError _ _ => true
  | .resultZWaveError _ _ _ => true
  | .event _ => false

/-- Whether a frame is a failure result frame. -/
def OutgoingFrame.isFailureResult : OutgoingFrame → Bool
  | .resultError _ _ => true
  | .resultZWaveError _ _ _ => true
  | _ => false

/-- The messageId a result frame carries, if it is a result frame. -/
def OutgoingFrame.resultMessageId : OutgoingFrame → Option String
  | .resultSuccess mid _ => some mid
  | .resultError mid _ => some mid
  | .resultZWaveError mid _ _ => some mid
  | .event _ => none

/-- The catch block of Client.receiveMessage (server.ts lines 159-172):
a BaseError is sent as a result error with its own errorCode, a ZWaveError is
passed through with its zwave-js code and message, and anything else becomes
an unknownError result. -/
def errorFrame (messageId : String) : HandlerError → OutgoingFrame
  | .schemaIncompatible _ => .resultError messageId .schemaIncompatible
  | .unknownCommand _ => .resultError messageId .unknownCommand
  | .inclusionAlreadyInProgress =>
      .resultError messageId .inclusionAlreadyInProgress
  | .inclusionPhaseNotInProgress _ =>
      .resultError messageId .inclusionPhaseNotInProgress
  | .zwave code message => .resultZWaveError messageId code message
  | .unexpected => .resultError messageId .unknownError

/-- The instance namespaces other than controller routed by the
instanceHandlers table of Client (server.ts lines 41-82); their handler
modules are outside the embedded core. -/
inductive OtherInstanceTag
  | driver
  | node
  | endpointInst
  | broadcastNode
  | multicastGroup
deriving DecidableEq, Repr

/-- A parsed incoming message as dispatched by Client.receiveMessage: the four
reserved server commands, a controller-namespace command, a command of one of
the other instance namespaces, or a command whose namespace matches no
instance handler. -/
inductive ServerMsg
  | setApiSchema (messageId : String) (schemaVersion : Nat)
  | startListening (messageId : String)
  | updateLogConfig (messageId : String) (config : Nat)
  | getLogConfig (messageId : String)
  | controller (messageId : String) (cmd : ControllerCmd)
  | otherInstance (messageId : String) (tag : OtherInstanceTag)
  | unknownNamespace (messageId : String) (command : String)
deriving DecidableEq, Repr

/-- The messageId of a parsed incoming message. -/
def ServerMsg.messageId : ServerMsg → String
  | .setApiSchema mid _ => mid
  | .startListening mid => mid
  | .updateLogConfig mid _ => mid
  | .getLogConfig mid => mid
  | .controller mid _ => mid
  | .otherInstance mid _ => mid
  | .unknownNamespace mid _ => mid

/-- Modelled from the spec: outcomes of the sub-handlers of the non-controller
instance namespaces (their modules are outside the embedded core); each
sub-handler is a function from the command to a result or a raised failure. -/
structure SubHandlerOracle where
  outcome : OtherInstanceTag → Except HandlerError Unit

/-- Output of one Client.receiveMessage call: the client and
clientsController states afterwards, the frames sent on the socket (each with
its per-frame compress flag), whether the socket was closed, the driver calls
made and the promise settlements performed. -/
structure ReceiveOut where
  client : ClientState
  cc : ClientsState
  sent : List (OutgoingFrame × Bool)
  closed : Bool
  calls : List DriverCall
  settled : List Settlement

/-- Build a ReceiveOut that sends a single uncompressed frame and leaves
everything else as given. -/
def sendOnly (client : ClientState) (cc : ClientsState)
    (frame : OutgoingFrame) : ReceiveOut :=
  { client := client, cc := cc, sent := [(frame, false)]
    closed := false, calls := [], settled := [] }

/-- Client.receiveMessage (server.ts lines 100-173).  The input is none when
JSON.parse fails (the message is not parseable), in which case the socket is
closed and nothing is sent; otherwise the branches are translated in source
order.  Note the setApiSchema branch assigns this.schemaVersion before the
range check, exactly as the source does. -/
def receiveMessage (cfg : SchemaConfig) (driver : DriverOracle)
    (subs : SubHandlerOracle) (client : ClientState) (cc : ClientsState) :
    Option ServerMsg → ReceiveOut
  | none =>
      { client := { client with connected := false }, cc := cc
        sent := [], closed := true, calls := [], settled := [] }
  | some (.setApiSchema mid v) =>
      let client := { client with schemaVersion := v }
      if client.schemaVersion < cfg.minSchemaVersion ∨
          cfg.maxSchemaVersion < client.schemaVersion then
        sendOnly client cc (errorFrame mid (.schemaIncompatible v))
      else
        sendOnly client cc (.resultSuccess mid .empty)
  | some (.startListening mid) =>
      { client := { client with receiveEvents := true }
        cc := cc
        sent := [(.resultSuccess mid
          (.state (dumpState driver client.schemaVersion)), true)]
        closed := false, calls := [], settled := [] }
  | some (.updateLogConfig mid config) =>
      match driver.updateLogConfig config with
      | .ok _ =>
          { client := client, cc := cc
            sent := [(.resultSuccess mid .empty, false)]
            closed := false, calls := [.updateLogConfig config]
            settled := [] }
      | .error e =>
          { client := client, cc := cc
            sent := [(errorFrame mid e.toHandlerError, false)]
            closed := false, calls := [.updateLogConfig config]
            settled := [] }
  | some (.getLogConfig mid) =>
      sendOnly client cc
        (.resultSuccess mid (.logConfig (dumpLogConfig driver
          client.schemaVersion)))
  | some (.controller mid cmd) =>
      let h := handleControllerCommand cc driver cmd
      match h.result with
      | .ok r =>
          { client := client, cc := h.cc
            sent := [(.resultSuccess mid (.controller r), false)]
            closed := false, calls := h.calls, settled := h.settled }
      | .error e =>
          { client := client, cc := h.cc
            sent := [(errorFrame mid e, false)]
            closed := false, calls := h.calls, settled := h.settled }
  | some (.otherInstance mid tag) =>
      match subs.outcome tag with
      | .ok _ => sendOnly client cc (.resultSuccess mid .otherHandler)
      | .error e => sendOnly client cc (errorFrame mid e)
  | some (.unknownNamespace mid command) =>
      sendOnly client cc (errorFrame mid (.unknownCommand command))

/-- Client.checkAlive (server.ts lines 242-249): with a ping already
outstanding the client is disconnected and no ping is sent; otherwise the
outstanding flag is set and a ping is emitted.  The Bool is whether a ping
frame was sent. -/
def checkAlive (c : ClientState) : ClientState × Bool :=
  if c.outstandingPing then ({ c with connected := false }, false)
  else ({ c with outstandingPing := true }, true)

/-- The pong listener installed in the Client constructor (server.ts lines
90-92): clears the outstanding-ping flag. -/
def onPong (c : ClientState) : ClientState :=
  { c with outstandingPing := false }

/-- The body of the recurring pingInterval installed by
ClientsController.addSocket (server.ts lines 280-294): every connected client
is kept, every no-longer-connected client is disconnected and dropped from
the list.  The body makes no other call on any client. -/
def pingIntervalTick (clients : List ClientState) : List ClientState :=
  clients.filter (fun c => c.connected)

/-- Modelled from the spec: the Event Forwarder (missing src/lib/forward.ts)
pushes each controller event to every session that has receiveEvents set and
is currently connected. -/
def eventRecipients (clients : List ClientState) : List ClientState :=
  clients.filter (fun c => c.receiveEvents && c.connected)

/-- A benign driver oracle on which every controller call succeeds, used to
instantiate theorems at concrete inputs. -/
def driverOk : DriverOracle :=
  { beginInclusion := fun _ => .ok true
    stopInclusion := .ok true
    beginExclusion := .ok true
    stopExclusion := .ok true
    removeFailedNode := fun _ => .ok ()
    replaceFailedNode := fun _ _ => .ok true
    healNode := fun _ => .ok true
    beginHealingNetwork := .ok true
    stopHealingNetwork := .ok true
    isFailedNode := fun _ => .ok false
    getAssociationGroups := fun _ _ => .ok 0
    getAssociations := fun _ _ => .ok 0
    isAssociationAllowed := fun _ _ _ _ => .ok true
    addAssociations := fun _ _ _ => .ok ()
    removeAssociations := fun _ _ _ => .ok ()
    removeNodeFromAllAssociations := fun _ => .ok ()
    getNodeNeighbors := fun _ => .ok []
    updateLogConfig := fun _ => .ok ()
    snapshot := 0 }

/-- A driver oracle whose stopInclusion call raises a ZWaveError with code 7,
used to instantiate the error pass-through theorems. -/
def driverZW : DriverOracle :=
  { driverOk with stopInclusion := .error (.zwave 7 ("boom")) }

/-- A sub-handler oracle on which every non-controller sub-handler
succeeds. -/
def subsOk : SubHandlerOracle :=
  { outcome := fun _ => .ok () }




/-! Helper lemmas about the clear-if-current finally handlers, shared by the
claims below. -/

theorem clearGrantIfCurrent_self (cc : ClientsState) (p : Nat)
    (h : cc.grantSecurityClassesPromise = some p) :
    (clearGrantIfCurrent cc p).grantSecurityClassesPromise = none := by
  simp [clearGrantIfCurrent, h]

theorem clearPinIfCurrent_self (cc : ClientsState) (p : Nat)
    (h : cc.validateDSKAndEnterPinPromise = some p) :
    (clearPinIfCurrent cc p).validateDSKAndEnterPinPromise = none := by
  simp [clearPinIfCurrent, h]

theorem clearGrantIfCurrent_pin (cc : ClientsState) (p : Nat) :
    (clearGrantIfCurrent cc p).validateDSKAndEnterPinPromise
      = cc.validateDSKAndEnterPinPromise := by
  unfold clearGrantIfCurrent
  split <;> rfl

theorem clearPinIfCurrent_grant (cc : ClientsState) (p : Nat) :
    (clearPinIfCurrent cc p).grantSecurityClassesPromise
      = cc.grantSecurityClassesPromise := by
  unfold clearPinIfCurrent
  split <;> rfl

theorem clearGrantIfCurrent_ne (cc : ClientsState) (p : Nat) :
    (clearGrantIfCurrent cc p).grantSecurityClassesPromise ≠ some p := by
  unfold clearGrantIfCurrent
  split
  · simp
  · next h => exact h

theorem clearPinIfCurrent_ne (cc : ClientsState) (p : Nat) :
    (clearPinIfCurrent cc p).validateDSKAndEnterPinPromise ≠ some p := by
  unfold clearPinIfCurrent
  split
  · simp
  · next h => exact h

theorem clearGrantIfCurrent_newer (cc : ClientsState) (p q : Nat)
    (hne : q ≠ p) (h : cc.grantSecurityClassesPromise = some q) :
    (clearGrantIfCurrent cc p).grantSecurityClassesPromise = some q := by
  simp [clearGrantIfCurrent, h, hne]

theorem clearPinIfCurrent_newer (cc : ClientsState) (p q : Nat)
    (hne : q ≠ p) (h : cc.validateDSKAndEnterPinPromise = some q) :
    (clearPinIfCurrent cc p).validateDSKAndEnterPinPromise = some q := by
  simp [clearPinIfCurrent, h, hne]

/-- Claim C10: for every legacy (schema at most 7) inclusion or
replace-failed-node command that carries no modern options object, an
includeNonSecure flag that is present and true selects the Insecure strategy,
and a flag that is absent or false silently defaults to the Security_S0
strategy, with no interactive callbacks installed. -/
theorem C10_legacy_fallback (flag : Option Bool) :
    processInclusionOptions (.legacy flag) =
      if flag = some true then
        { strategy := InclusionStrategy.Insecure, userCallbacks := false }
      else
        { strategy := InclusionStrategy.Security_S0, userCallbacks := false } :=
  rfl

/-- Claim C7 (amended by nothing: as stated): once a deferred promise p is
settled, the clear-if-current finally handler leaves the corresponding slot
holding anything but p — the slot is cleared when it still held p, and a newer
deferred q that replaced p is never removed; the resolve paths of the
controller handler indeed return the settled channel to idle. -/
theorem C7_settlement_returns_channel_to_idle (cc : ClientsState)
    (driver : DriverOracle) (p : Nat) (g : Option InclusionGrant)
    (pin : Option String) :
    (clearGrantIfCurrent cc p).grantSecurityClassesPromise ≠ some p ∧
    (clearPinIfCurrent cc p).validateDSKAndEnterPinPromise ≠ some p ∧
    (∀ q, q ≠ p → cc.grantSecurityClassesPromise = some q →
      (clearGrantIfCurrent cc p).grantSecurityClassesPromise = some q) ∧
    (∀ q, q ≠ p → cc.validateDSKAndEnterPinPromise = some q →
      (clearPinIfCurrent cc p).validateDSKAndEnterPinPromise = some q) ∧
    (cc.grantSecurityClassesPromise = some p →
      (handleControllerCommand cc driver
        (.grantSecurityClasses g)).cc.grantSecurityClassesPromise = none) ∧
    (cc.validateDSKAndEnterPinPromise = some p →
      (handleControllerCommand cc driver
        (.validateDSKAndEnterPIN pin)).cc.validateDSKAndEnterPinPromise
        = none) := by
  refine ⟨clearGrantIfCurrent_ne cc p, clearPinIfCurrent_ne cc p,
    fun q hq h => clearGrantIfCurrent_newer cc p q hq h,
    fun q hq h => clearPinIfCurrent_newer cc p q hq h, ?_, ?_⟩
  · intro h
    simp [handleControllerCommand, h, clearGrantIfCurrent_self cc p h]
  · intro h
    simp [handleControllerCommand, h, clearPinIfCurrent_self cc p h]

/-- Witness for C7 at a concrete state: grant slot pending with promise 1,
settled promise 0 leaves the newer promise 1 in place, and a slot pending
with promise 0 is cleared by resolving it. -/
theorem C7_settlement_returns_channel_to_idle_witness :
    ((clearGrantIfCurrent ⟨some 1, none⟩ 0).grantSecurityClassesPromise
        ≠ some 0) ∧
    ((1 : Nat) ≠ 0 → (⟨some 1, none⟩ : ClientsState).grantSecurityClassesPromise
        = some 1 →
      (clearGrantIfCurrent ⟨some 1, none⟩ 0).grantSecurityClassesPromise
        = some 1) ∧
    ((⟨some 0, some 0⟩ : ClientsState).grantSecurityClassesPromise = some 0 →
      (handleControllerCommand ⟨some 0, some 0⟩ driverOk
        (.grantSecurityClasses none)).cc.grantSecurityClassesPromise
        = none) := by
  refine ⟨(C7_settlement_returns_channel_to_idle ⟨some 1, none⟩ driverOk 0
      none none).1,
    fun hq h => (C7_settlement_returns_channel_to_idle ⟨some 1, none⟩ driverOk 0
      none none).2.2.1 1 hq h,
    fun h => (C7_settlement_returns_channel_to_idle ⟨some 0, some 0⟩ driverOk 0
      none none).2.2.2.2.1 h⟩

/-- Claim C8: a grant-security-classes or validate-dsk-and-enter-pin command
arriving while the corresponding channel holds no pending deferred fails with
the phase-not-in-progress error naming that channel and changes neither
channel nor anything else; if the channel is pending, the command returns an
empty result and resolves the pending deferred with the supplied value. -/
theorem C8_answer_channel (cc : ClientsState) (driver : DriverOracle)
    (g : Option InclusionGrant) (pin : Option String) :
    (cc.grantSecurityClassesPromise = none →
      (handleControllerCommand cc driver (.grantSecurityClasses g)).result
          = .error (.inclusionPhaseNotInProgress ("grantSecurityClassesPromise")) ∧
      (handleControllerCommand cc driver (.grantSecurityClasses g)).cc = cc ∧
      (handleControllerCommand cc driver (.grantSecurityClasses g)).settled = [] ∧
      (handleControllerCommand cc driver (.grantSecurityClasses g)).calls = []) ∧
    (∀ p, cc.grantSecurityClassesPromise = some p →
      (handleControllerCommand cc driver (.grantSecurityClasses g)).result
          = .ok .empty ∧
      (handleControllerCommand cc driver (.grantSecurityClasses g)).settled
          = [.resolvedGrant p g]) ∧
    (cc.validateDSKAndEnterPinPromise = none →
      (handleControllerCommand cc driver (.validateDSKAndEnterPIN pin)).result
          = .error (.inclusionPhaseNotInProgress ("validateDSKAndEnterPinPromise")) ∧
      (handleControllerCommand cc driver (.validateDSKAndEnterPIN pin)).cc = cc ∧
      (handleControllerCommand cc driver (.validateDSKAndEnterPIN pin)).settled = [] ∧
      (handleControllerCommand cc driver (.validateDSKAndEnterPIN pin)).calls = []) ∧
    (∀ p, cc.validateDSKAndEnterPinPromise = some p →
      (handleControllerCommand cc driver (.validateDSKAndEnterPIN pin)).result
          = .ok .empty ∧
      (handleControllerCommand cc driver (.validateDSKAndEnterPIN pin)).settled
          = [.resolvedPin p pin]) := by
  refine ⟨fun h => ?_, fun p h => ?_, fun h => ?_, fun p h => ?_⟩ <;>
    simp [handleControllerCommand, h]

/-- Witness for C8: with both channels idle the grant answer fails with the
phase-not-in-progress error, and with the grant channel pending on promise 3
the answer resolves it with the supplied value. -/
theorem C8_answer_channel_witness :
    ((⟨none, none⟩ : ClientsState).grantSecurityClassesPromise = none →
      (handleControllerCommand ⟨none, none⟩ driverOk
          (.grantSecurityClasses (some 9))).result
        = .error (.inclusionPhaseNotInProgress ("grantSecurityClassesPromise"))) ∧
    ((⟨some 3, none⟩ : ClientsState).grantSecurityClassesPromise = some 3 →
      (handleControllerCommand ⟨some 3, none⟩ driverOk
          (.grantSecurityClasses (some 9))).settled
        = [.resolvedGrant 3 (some 9)]) :=
  ⟨fun h => ((C8_answer_channel ⟨none, none⟩ driverOk (some 9) none).1 h).1,
   fun h => ((C8_answer_channel ⟨some 3, none⟩ driverOk (some 9) none).2.1 3 h).2⟩

/-- Claim C4, counterexample: invoking the abort capability while both
channels are idle (no callback was ever invoked, nothing pending) still
pushes an inclusion-aborted event — the claim says abort while idle emits no
event.  The state is unchanged and nothing is settled, yet the event list is
nonempty. -/
theorem C4_counterexample :
    (abortCallback none none ⟨none, none⟩).settled = [] ∧
    (abortCallback none none ⟨none, none⟩).cc = ⟨none, none⟩ ∧
    (abortCallback none none ⟨none, none⟩).events
      = [CtrlEvent.inclusionAborted] :=
  ⟨rfl, rfl, rfl⟩

/-- Claim C4 as amended: abort always pushes exactly one inclusion-aborted
event, whether or not anything is pending; each captured pending deferred is
rejected and its channel returns to idle, and abort with nothing captured
changes no state and settles nothing (it is a no-op except for the event). -/
theorem C4_abort (g v : Option Nat) (cc : ClientsState) :
    (abortCallback g v cc).events = [CtrlEvent.inclusionAborted] ∧
    (∀ p, g = some p →
      Settlement.rejectedGrant p ∈ (abortCallback g v cc).settled ∧
      (cc.grantSecurityClassesPromise = some p →
        (abortCallback g v cc).cc.grantSecurityClassesPromise = none)) ∧
    (∀ p, v = some p →
      Settlement.rejectedPin p ∈ (abortCallback g v cc).settled ∧
      (cc.validateDSKAndEnterPinPromise = some p →
        (abortCallback g v cc).cc.validateDSKAndEnterPinPromise = none)) ∧
    (g = none → v = none →
      (abortCallback g v cc).cc = cc ∧ (abortCallback g v cc).settled = []) := by
  cases g with
  | none =>
      cases v with
      | none => simp [abortCallback]
      | some pv =>
          refine ⟨rfl, by simp, fun p hp => ?_, by simp⟩
          obtain rfl : pv = p := by injection hp
          exact ⟨by simp [abortCallback], fun h => by
            simp [abortCallback, clearPinIfCurrent_self cc pv h]⟩
  | some pg =>
      cases v with
      | none =>
          refine ⟨rfl, fun p hp => ?_, by simp, by simp⟩
          obtain rfl : pg = p := by injection hp
          exact ⟨by simp [abortCallback], fun h => by
            simpa [abortCallback] using clearGrantIfCurrent_self cc pg h⟩
      | some pv =>
          refine ⟨rfl, fun p hp => ?_, fun p hp => ?_, by simp⟩
          · obtain rfl : pg = p := by injection hp
            exact ⟨by simp [abortCallback], fun h => by
              simpa [abortCallback, clearPinIfCurrent_grant] using
                clearGrantIfCurrent_self cc pg h⟩
          · obtain rfl : pv = p := by injection hp
            refine ⟨by simp [abortCallback], fun h => ?_⟩
            have h2 : (clearGrantIfCurrent cc pg).validateDSKAndEnterPinPromise
                = some pv := by rw [clearGrantIfCurrent_pin]; exact h
            simp [abortCallback,
              clearPinIfCurrent_self (clearGrantIfCurrent cc pg) pv h2]

/-- Witness for C4 at a concrete state: aborting with both promises captured
(ids 5 and 6) and both channels pending rejects both and returns both
channels to idle, with exactly one aborted event. -/
theorem C4_abort_witness :
    (abortCallback (some 5) (some 6) ⟨some 5, some 6⟩).events
      = [CtrlEvent.inclusionAborted] ∧
    ((⟨some 5, some 6⟩ : ClientsState).grantSecurityClassesPromise = some 5 →
      (abortCallback (some 5) (some 6)
        ⟨some 5, some 6⟩).cc.grantSecurityClassesPromise = none) ∧
    ((⟨some 5, some 6⟩ : ClientsState).validateDSKAndEnterPinPromise = some 6 →
      (abortCallback (some 5) (some 6)
        ⟨some 5, some 6⟩).cc.validateDSKAndEnterPinPromise = none) :=
  ⟨(C4_abort (some 5) (some 6) ⟨some 5, some 6⟩).1,
   fun h => ((C4_abort (some 5) (some 6) ⟨some 5, some 6⟩).2.1 5 rfl).2 h,
   fun h => ((C4_abort (some 5) (some 6) ⟨some 5, some 6⟩).2.2.1 6 rfl).2 h⟩

/-- Claim C1, counterexample: with the grant-security-classes channel already
pending (promise 0), a replace-failed-node command with a Default-strategy
options object is not rejected with the conflict error — the handler succeeds
and the controller capability is invoked.  The claim requires a
conflict-already-in-progress failure with no controller call. -/
theorem C1_counterexample :
    (handleControllerCommand
        ⟨some 0, none⟩ driverOk
        (.replaceFailedNode 2 (.modern .Default))).result
      = .ok (.success true) ∧
    (handleControllerCommand
        ⟨some 0, none⟩ driverOk
        (.replaceFailedNode 2 (.modern .Default))).calls
      = [.replaceFailedNode 2
          { strategy := .Default, userCallbacks := true }] :=
  ⟨rfl, rfl⟩

/-- Claim C1 as amended: only begin_inclusion performs the conflict check —
if either interactive channel holds a pending deferred it fails with the
conflict-already-in-progress error and the controller is not invoked;
replace_failed_node performs no such check and always invokes the controller
capability, whatever the channel states. -/
theorem C1_conflict_check (cc : ClientsState) (driver : DriverOracle)
    (opts opts2 : IncomingInclusionOptions) (nodeId : Nat)
    (h : cc.grantSecurityClassesPromise.isSome
        ∨ cc.validateDSKAndEnterPinPromise.isSome) :
    (handleControllerCommand cc driver (.beginInclusion opts)).result
        = .error .inclusionAlreadyInProgress ∧
    (handleControllerCommand cc driver (.beginInclusion opts)).calls = [] ∧
    (handleControllerCommand cc driver (.replaceFailedNode nodeId opts2)).calls
        = [.replaceFailedNode nodeId (processInclusionOptions opts2)] := by
  refine ⟨?_, ?_, ?_⟩
  · simp only [handleControllerCommand]
    rw [if_pos h]
  · simp only [handleControllerCommand]
    rw [if_pos h]
  · simp [handleControllerCommand, driverCase]

/-- Witness for C1 at a concrete state: the validate channel pending
(promise 4) makes begin_inclusion fail with the conflict error and no
controller call, while replace_failed_node still calls the controller. -/
theorem C1_conflict_check_witness :
    ((⟨none, some 4⟩ : ClientsState).grantSecurityClassesPromise.isSome
        ∨ (⟨none, some 4⟩ : ClientsState).validateDSKAndEnterPinPromise.isSome) ∧
    ((handleControllerCommand ⟨none, some 4⟩ driverOk
        (.beginInclusion (.modern .Security_S2))).result
      = .error .inclusionAlreadyInProgress ∧
    (handleControllerCommand ⟨none, some 4⟩ driverOk
        (.beginInclusion (.modern .Security_S2))).calls = [] ∧
    (handleControllerCommand ⟨none, some 4⟩ driverOk
        (.replaceFailedNode 7 (.legacy none))).calls
      = [.replaceFailedNode 7 (processInclusionOptions (.legacy none))]) :=
  ⟨Or.inr rfl,
   C1_conflict_check ⟨none, some 4⟩ driverOk (.modern .Security_S2)
     (.legacy none) 7 (Or.inr rfl)⟩

/-! Helper lemmas about errorFrame, shared by the session-level claims. -/

theorem errorFrame_isResult (mid : String) (e : HandlerError) :
    (errorFrame mid e).isResult = true := by
  cases e <;> rfl

theorem errorFrame_isFailureResult (mid : String) (e : HandlerError) :
    (errorFrame mid e).isFailureResult = true := by
  cases e <;> rfl

theorem errorFrame_resultMessageId (mid : String) (e : HandlerError) :
    (errorFrame mid e).resultMessageId = some mid := by
  cases e <;> rfl

/-- Claim C2, counterexample: against the schema interval [0, 4], a
set_api_schema carrying version 5 leaves the stored schemaVersion at the
out-of-range value 5 (the source assigns before validating), does not close
the connection, and a subsequent start_listening dump is keyed by that
out-of-range version 5. -/
theorem C2_counterexample :
    (receiveMessage ⟨0, 4⟩ driverOk subsOk (ClientState.init ⟨0, 4⟩)
        ⟨none, none⟩ (some (.setApiSchema ("m1") 5))).client.schemaVersion
      = 5 ∧
    (4 : Nat) < 5 ∧
    (receiveMessage ⟨0, 4⟩ driverOk subsOk (ClientState.init ⟨0, 4⟩)
        ⟨none, none⟩ (some (.setApiSchema ("m1") 5))).closed = false ∧
    (receiveMessage ⟨0, 4⟩ driverOk subsOk
        (receiveMessage ⟨0, 4⟩ driverOk subsOk (ClientState.init ⟨0, 4⟩)
          ⟨none, none⟩ (some (.setApiSchema ("m1") 5))).client
        ⟨none, none⟩ (some (.startListening ("m2")))).sent
      = [(.resultSuccess ("m2")
            (.state { snapshot := 0, schemaVersion := 5 }), true)] :=
  ⟨rfl, by decide, rfl, rfl⟩

/-- Claim C2 as amended: an out-of-range set_api_schema is answered with the
schema-incompatibility failure before any other command is honored under an
in-range version, and the connection is not closed; however the stored
schemaVersion is assigned before validation, so after the rejected command it
holds the out-of-range value, and every start_listening dump and every
get_log_config dump is keyed by whatever version is currently stored — in
range or not. -/
theorem C2_schema_version_storage (cfg : SchemaConfig) (driver : DriverOracle)
    (subs : SubHandlerOracle) (client : ClientState) (cc : ClientsState)
    (mid : String) (v : Nat)
    (h : v < cfg.minSchemaVersion ∨ cfg.maxSchemaVersion < v) :
    (receiveMessage cfg driver subs client cc
        (some (.setApiSchema mid v))).client.schemaVersion = v ∧
    (receiveMessage cfg driver subs client cc
        (some (.setApiSchema mid v))).sent
      = [(.resultError mid .schemaIncompatible, false)] ∧
    (receiveMessage cfg driver subs client cc
        (some (.setApiSchema mid v))).closed = false ∧
    (∀ client2 cc2 mid2,
      (receiveMessage cfg driver subs client2 cc2
          (some (.startListening mid2))).sent
        = [(.resultSuccess mid2
              (.state (dumpState driver client2.schemaVersion)), true)]) ∧
    (∀ client2 cc2 mid2,
      (receiveMessage cfg driver subs client2 cc2
          (some (.getLogConfig mid2))).sent
        = [(.resultSuccess mid2
              (.logConfig (dumpLogConfig driver client2.schemaVersion)),
            false)]) := by
  refine ⟨?_, ?_, ?_, fun client2 cc2 mid2 => rfl,
    fun client2 cc2 mid2 => rfl⟩ <;>
    simp [receiveMessage, sendOnly, errorFrame, h]

/-- Witness for C2 at a concrete input: version 9 against the interval
[2, 7] is stored, and a get_log_config dump for a session storing version 9
is keyed by 9. -/
theorem C2_schema_version_storage_witness :
    ((9 : Nat) < (⟨2, 7⟩ : SchemaConfig).minSchemaVersion ∨
        (⟨2, 7⟩ : SchemaConfig).maxSchemaVersion < 9) ∧
    (receiveMessage ⟨2, 7⟩ driverOk subsOk (ClientState.init ⟨2, 7⟩)
        ⟨none, none⟩ (some (.setApiSchema ("w") 9))).client.schemaVersion
      = 9 ∧
    (receiveMessage ⟨2, 7⟩ driverOk subsOk
        (⟨false, false, 9, false, true⟩ : ClientState)
        ⟨none, none⟩ (some (.getLogConfig ("g")))).sent
      = [(.resultSuccess ("g")
            (.logConfig (dumpLogConfig driverOk
              ((⟨false, false, 9, false, true⟩ : ClientState).schemaVersion))),
          false)] :=
  ⟨Or.inr (by decide),
   (C2_schema_version_storage ⟨2, 7⟩ driverOk subsOk (ClientState.init ⟨2, 7⟩)
      ⟨none, none⟩ ("w") 9 (Or.inr (by decide))).1,
   (C2_schema_version_storage ⟨2, 7⟩ driverOk subsOk (ClientState.init ⟨2, 7⟩)
      ⟨none, none⟩ ("w") 9 (Or.inr (by decide))).2.2.2.2
     ⟨false, false, 9, false, true⟩ ⟨none, none⟩ ("g")⟩

/-- Claim C9: an out-of-range set_api_schema yields a failure result with the
schema-incompatibility error code and leaves the session open, and a
subsequent set_api_schema with an in-range version — from any session state —
succeeds with an empty result, the written version winning. -/
theorem C9_schema_negotiation (cfg : SchemaConfig) (driver : DriverOracle)
    (subs : SubHandlerOracle) (client client2 : ClientState)
    (cc : ClientsState) (mid mid2 : String) (v v2 : Nat)
    (hout : v < cfg.minSchemaVersion ∨ cfg.maxSchemaVersion < v)
    (hin : cfg.minSchemaVersion ≤ v2 ∧ v2 ≤ cfg.maxSchemaVersion) :
    (receiveMessage cfg driver subs client cc
        (some (.setApiSchema mid v))).sent
      = [(.resultError mid .schemaIncompatible, false)] ∧
    (receiveMessage cfg driver subs client cc
        (some (.setApiSchema mid v))).closed = false ∧
    (receiveMessage cfg driver subs client cc
        (some (.setApiSchema mid v))).client.connected = client.connected ∧
    (receiveMessage cfg driver subs client2 cc
        (some (.setApiSchema mid2 v2))).sent
      = [(.resultSuccess mid2 .empty, false)] ∧
    (receiveMessage cfg driver subs client2 cc
        (some (.setApiSchema mid2 v2))).closed = false ∧
    (receiveMessage cfg driver subs client2 cc
        (some (.setApiSchema mid2 v2))).client.schemaVersion = v2 := by
  have hnot : ¬(v2 < cfg.minSchemaVersion ∨ cfg.maxSchemaVersion < v2) := by
    omega
  refine ⟨?_, ?_, ?_, ?_, ?_, ?_⟩ <;>
    simp [receiveMessage, sendOnly, errorFrame, hout, hnot]

/-- Witness for C9: version 9 rejected against [2, 7], then version 7
accepted, the second write winning even after the first stored 9. -/
theorem C9_schema_negotiation_witness :
    ((9 : Nat) < 2 ∨ (7 : Nat) < 9) ∧ ((2 : Nat) ≤ 7 ∧ (7 : Nat) ≤ 7) ∧
    ((receiveMessage ⟨2, 7⟩ driverOk subsOk (ClientState.init ⟨2, 7⟩)
        ⟨none, none⟩ (some (.setApiSchema ("w1") 9))).sent
      = [(.resultError ("w1") .schemaIncompatible, false)] ∧
    (receiveMessage ⟨2, 7⟩ driverOk subsOk (ClientState.init ⟨2, 7⟩)
        ⟨none, none⟩ (some (.setApiSchema ("w1") 9))).closed = false ∧
    (receiveMessage ⟨2, 7⟩ driverOk subsOk (ClientState.init ⟨2, 7⟩)
        ⟨none, none⟩ (some (.setApiSchema ("w1") 9))).client.connected
      = (ClientState.init ⟨2, 7⟩).connected ∧
    (receiveMessage ⟨2, 7⟩ driverOk subsOk
        (receiveMessage ⟨2, 7⟩ driverOk subsOk (ClientState.init ⟨2, 7⟩)
          ⟨none, none⟩ (some (.setApiSchema ("w1") 9))).client
        ⟨none, none⟩ (some (.setApiSchema ("w2") 7))).sent
      = [(.resultSuccess ("w2") .empty, false)] ∧
    (receiveMessage ⟨2, 7⟩ driverOk subsOk
        (receiveMessage ⟨2, 7⟩ driverOk subsOk (ClientState.init ⟨2, 7⟩)
          ⟨none, none⟩ (some (.setApiSchema ("w1") 9))).client
        ⟨none, none⟩ (some (.setApiSchema ("w2") 7))).closed = false ∧
    (receiveMessage ⟨2, 7⟩ driverOk subsOk
        (receiveMessage ⟨2, 7⟩ driverOk subsOk (ClientState.init ⟨2, 7⟩)
          ⟨none, none⟩ (some (.setApiSchema ("w1") 9))).client
        ⟨none, none⟩ (some (.setApiSchema ("w2") 7))).client.schemaVersion
      = 7) :=
  ⟨Or.inr (by decide), ⟨by decide, by decide⟩,
   C9_schema_negotiation ⟨2, 7⟩ driverOk subsOk (ClientState.init ⟨2, 7⟩)
     (receiveMessage ⟨2, 7⟩ driverOk subsOk (ClientState.init ⟨2, 7⟩)
       ⟨none, none⟩ (some (.setApiSchema ("w1") 9))).client
     ⟨none, none⟩ ("w1") ("w2") 9 7 (Or.inr (by decide))
     ⟨by decide, by decide⟩⟩

/-- Claim C3: an unparsable frame closes the connection and sends nothing;
every parsed command — success or any failure (unknown command, schema
incompatibility, coordination conflict, collaborator error) — produces
exactly one result frame carrying the original messageId and never closes
the connection; any error thrown by the controller handler is mapped through
the catch block, every such mapped frame is a failure result carrying the
original messageId, and a ZWaveError is passed through with its own code and
message. -/
theorem C3_session_boundary (cfg : SchemaConfig) (driver : DriverOracle)
    (subs : SubHandlerOracle) (client : ClientState) (cc : ClientsState) :
    ((receiveMessage cfg driver subs client cc none).closed = true ∧
      (receiveMessage cfg driver subs client cc none).sent = []) ∧
    (∀ msg : ServerMsg,
      (receiveMessage cfg driver subs client cc (some msg)).closed = false ∧
      (∃ frame compress,
        (receiveMessage cfg driver subs client cc (some msg)).sent
          = [(frame, compress)] ∧
        frame.isResult = true ∧
        frame.resultMessageId = some msg.messageId)) ∧
    (∀ mid cmd e,
      (handleControllerCommand cc driver cmd).result = .error e →
      (receiveMessage cfg driver subs client cc
          (some (.controller mid cmd))).sent = [(errorFrame mid e, false)]) ∧
    (∀ mid e, (errorFrame mid e).isFailureResult = true ∧
      (errorFrame mid e).resultMessageId = some mid) ∧
    (∀ mid code emsg,
      errorFrame mid (.zwave code emsg)
        = .resultZWaveError mid code emsg) := by
  refine ⟨⟨rfl, rfl⟩, fun msg => ?_, fun mid cmd e hr => ?_,
    fun mid e => ⟨errorFrame_isFailureResult mid e,
      errorFrame_resultMessageId mid e⟩,
    fun mid code emsg => rfl⟩
  · cases msg with
    | setApiSchema mid v =>
        by_cases hc : v < cfg.minSchemaVersion ∨ cfg.maxSchemaVersion < v
        · exact ⟨by simp [receiveMessage, sendOnly, hc],
            errorFrame mid (.schemaIncompatible v), false,
            by simp [receiveMessage, sendOnly, hc],
            errorFrame_isResult mid _, errorFrame_resultMessageId mid _⟩
        · exact ⟨by simp [receiveMessage, sendOnly, hc],
            .resultSuccess mid .empty, false,
            by simp [receiveMessage, sendOnly, hc], rfl, rfl⟩
    | startListening mid =>
        exact ⟨rfl, .resultSuccess mid
          (.state (dumpState driver client.schemaVersion)), true, rfl, rfl,
          rfl⟩
    | updateLogConfig mid config =>
        cases hu : driver.updateLogConfig config with
        | ok u =>
            exact ⟨by simp [receiveMessage, hu],
              .resultSuccess mid .empty, false,
              by simp [receiveMessage, hu], rfl, rfl⟩
        | error e =>
            exact ⟨by simp [receiveMessage, hu],
              errorFrame mid e.toHandlerError, false,
              by simp [receiveMessage, hu],
              errorFrame_isResult mid _, errorFrame_resultMessageId mid _⟩
    | getLogConfig mid =>
        exact ⟨rfl, .resultSuccess mid
          (.logConfig (dumpLogConfig driver client.schemaVersion)), false,
          rfl, rfl, rfl⟩
    | controller mid cmd =>
        cases hr : (handleControllerCommand cc driver cmd).result with
        | ok r =>
            exact ⟨by simp [receiveMessage, hr],
              .resultSuccess mid (.controller r), false,
              by simp [receiveMessage, hr], rfl, rfl⟩
        | error e =>
            exact ⟨by simp [receiveMessage, hr], errorFrame mid e, false,
              by simp [receiveMessage, hr],
              errorFrame_isResult mid _, errorFrame_resultMessageId mid _⟩
    | otherInstance mid tag =>
        cases ho : subs.outcome tag with
        | ok u =>
            exact ⟨by simp [receiveMessage, sendOnly, ho],
              .resultSuccess mid .otherHandler, false,
              by simp [receiveMessage, sendOnly, ho], rfl, rfl⟩
        | error e =>
            exact ⟨by simp [receiveMessage, sendOnly, ho],
              errorFrame mid e, false,
              by simp [receiveMessage, sendOnly, ho],
              errorFrame_isResult mid _, errorFrame_resultMessageId mid _⟩
    | unknownNamespace mid command =>
        exact ⟨rfl, errorFrame mid (.unknownCommand command), false, rfl,
          errorFrame_isResult mid _, errorFrame_resultMessageId mid _⟩
  · simp [receiveMessage, hr]

/-- Witness for C3: against a driver whose stopInclusion raises a ZWaveError
with code 7 and message boom, the session answers the command with a single
zwave-error result carrying the original messageId, and does not close. -/
theorem C3_session_boundary_witness :
    ((handleControllerCommand ⟨none, none⟩ driverZW .stopInclusion).result
      = .error (.zwave 7 ("boom"))) ∧
    (receiveMessage ⟨0, 4⟩ driverZW subsOk (ClientState.init ⟨0, 4⟩)
        ⟨none, none⟩ (some (.controller ("m7") .stopInclusion))).sent
      = [(.resultZWaveError ("m7") 7 ("boom"), false)] :=
  ⟨rfl,
   (C3_session_boundary ⟨0, 4⟩ driverZW subsOk (ClientState.init ⟨0, 4⟩)
      ⟨none, none⟩).2.2.1 ("m7") .stopInclusion (.zwave 7 ("boom")) rfl⟩

/-- Claim C5: start_listening answers with a single success result whose
payload is the full state dump keyed by the session's stored schemaVersion,
sent with per-frame compression enabled; the receiveEvents flag is true only
in the post-state, after that frame is emitted; every frame produced by any
other command is uncompressed; a fresh session has receiveEvents false, and a
session with receiveEvents false is never an event-forwarding recipient — so
controller events reach the session only after the snapshot result. -/
theorem C5_start_listening (cfg : SchemaConfig) (driver : DriverOracle)
    (subs : SubHandlerOracle) (client : ClientState) (cc : ClientsState)
    (mid : String) :
    (receiveMessage cfg driver subs client cc
        (some (.startListening mid))).sent
      = [(.resultSuccess mid
            (.state (dumpState driver client.schemaVersion)), true)] ∧
    (receiveMessage cfg driver subs client cc
        (some (.startListening mid))).client.receiveEvents = true ∧
    (receiveMessage cfg driver subs client cc
        (some (.startListening mid))).closed = false ∧
    (dumpState driver client.schemaVersion).schemaVersion
      = client.schemaVersion ∧
    (ClientState.init cfg).receiveEvents = false ∧
    (∀ msg : ServerMsg, (∀ mid2, msg ≠ .startListening mid2) →
      ∀ fr ∈ (receiveMessage cfg driver subs client cc (some msg)).sent,
        fr.2 = false) ∧
    (client.receiveEvents = false →
      ∀ clients, client ∉ eventRecipients clients) := by
  refine ⟨rfl, rfl, rfl, rfl, rfl, fun msg hne => ?_, fun hre clients hmem => ?_⟩
  · cases msg with
    | setApiSchema mid v =>
        by_cases hc : v < cfg.minSchemaVersion ∨ cfg.maxSchemaVersion < v <;>
          simp [receiveMessage, sendOnly, hc]
    | startListening mid2 => exact absurd rfl (hne mid2)
    | updateLogConfig mid config =>
        cases hu : driver.updateLogConfig config <;>
          simp [receiveMessage, hu]
    | getLogConfig mid => simp [receiveMessage, sendOnly]
    | controller mid cmd =>
        cases hr : (handleControllerCommand cc driver cmd).result <;>
          simp [receiveMessage, hr]
    | otherInstance mid tag =>
        cases ho : subs.outcome tag <;>
          simp [receiveMessage, sendOnly, ho]
    | unknownNamespace mid command => simp [receiveMessage, sendOnly]
  · rw [eventRecipients, List.mem_filter] at hmem
    simp [hre] at hmem

/-- Witness for C5: a fresh session against the interval [0, 4] is not an
event recipient while alone in the registry, a get_log_config frame is
uncompressed, and start_listening sends the compressed snapshot keyed by the
stored version. -/
theorem C5_start_listening_witness :
    (receiveMessage ⟨0, 4⟩ driverOk subsOk (ClientState.init ⟨0, 4⟩)
        ⟨none, none⟩ (some (.startListening ("s")))).sent
      = [(.resultSuccess ("s")
            (.state (dumpState driverOk
              (ClientState.init ⟨0, 4⟩).schemaVersion)), true)] ∧
    ((∀ mid2, ServerMsg.getLogConfig ("g") ≠ .startListening mid2) →
      ∀ fr ∈ (receiveMessage ⟨0, 4⟩ driverOk subsOk (ClientState.init ⟨0, 4⟩)
          ⟨none, none⟩ (some (.getLogConfig ("g")))).sent, fr.2 = false) ∧
    ((ClientState.init ⟨0, 4⟩).receiveEvents = false →
      ∀ clients, ClientState.init ⟨0, 4⟩ ∉ eventRecipients clients) :=
  ⟨(C5_start_listening ⟨0, 4⟩ driverOk subsOk (ClientState.init ⟨0, 4⟩)
      ⟨none, none⟩ ("s")).1,
   fun hne => (C5_start_listening ⟨0, 4⟩ driverOk subsOk
      (ClientState.init ⟨0, 4⟩) ⟨none, none⟩ ("s")).2.2.2.2.2.1
      (.getLogConfig ("g")) hne,
   fun hre => (C5_start_listening ⟨0, 4⟩ driverOk subsOk
      (ClientState.init ⟨0, 4⟩) ⟨none, none⟩ ("s")).2.2.2.2.2.2 hre⟩

/-- A connected session with no outstanding ping that never answers any
probe: the failing input for the liveness claim. -/
def c6client : ClientState :=
  { receiveEvents := true
    outstandingPing := false
    schemaVersion := 0
    receiveLogs := false
    connected := true }

/-- Claim C6 (code bug): the recurring interval body only prunes
already-disconnected sessions — across two consecutive ticks the connected,
never-answering session is kept completely unchanged, its outstanding-ping
flag is never set, and it is never disconnected.  Had the interval invoked
checkAlive as the claim describes, the first call would have sent a ping and
set the flag, the second would have disconnected the session; a pong clears
the flag.  checkAlive itself matches the claim, but no code invokes it. -/
theorem C6_interval_never_invokes_probe :
    pingIntervalTick [c6client] = [c6client] ∧
    pingIntervalTick (pingIntervalTick [c6client]) = [c6client] ∧
    c6client.connected = true ∧
    c6client.outstandingPing = false ∧
    (checkAlive c6client).2 = true ∧
    (checkAlive c6client).1.outstandingPing = true ∧
    (checkAlive (checkAlive c6client).1).2 = false ∧
    (checkAlive (checkAlive c6client).1).1.connected = false ∧
    onPong (checkAlive c6client).1 = c6client := by
  refine ⟨rfl, rfl, rfl, rfl, ?_, ?_, ?_, ?_, rfl⟩ <;> rfl
